import Mathlib

/-!
Shallow embedding of the deepscm repository: the variational GMM driver
`models/gmm.py` and the structural causal VAE component
`experiments/medical/ukbb/sem_vi/conditional_sem.py`.

Real tensor arithmetic is modelled exactly over `ℚ`.  The transcendental and
learned functions the code obtains from its numeric libraries
(`torch.digamma`, the exponential inside `torch.softmax`, the spline and
conditional-affine networks of the pyro flows) are supplied as explicit
function parameters, so every definition stays computable and the theorems
quantify over all possible interpretations of those externals.
-/

/-- A dense N x D tensor of rationals, row index first (torch convention). -/
abbrev Mat (N D : ℕ) : Type := Fin N → Fin D → ℚ

/-- `torch.distributions.Dirichlet`, carried by its concentration vector. -/
structure Dirichlet (K : ℕ) where
  concentration : Fin K → ℚ

/-- The result triple of `NaturalNormalWishart.expected_stats()`:
`(expec_eta1 : K x D, expec_eta2 : K x D x D, expec_log_norm : K)`. -/
structure NNWStats (K D : ℕ) where
  eta1 : Fin K → Fin D → ℚ
  eta2 : Fin K → Fin D → Fin D → ℚ
  logNorm : Fin K → ℚ

/-- Interpretation environment for the external dependencies of
`models/gmm.py`: `torch.digamma`, the exponential used by `softmax`, and the
`NaturalNormalWishart` operations (`distributions/natural_nw.py` is not under
`src/`, so the component-prior type `C` and its operations are abstract). -/
structure GmmEnv (C : Type) (N D K : ℕ) where
  digamma : ℚ → ℚ
  exp : ℚ → ℚ
  expectedStats : C → NNWStats K D
  posterior : C → Mat N D → Mat N K → C
  initComponent : ℚ → ℚ → ℚ → ℚ → C

/-- `torch.einsum('nd,kd->nk', x, e1)`. -/
def einsum_nd_kd {N D K : ℕ} (x : Mat N D) (a : Fin K → Fin D → ℚ) : Mat N K :=
  fun n k => (List.ofFn fun d => x n d * a k d).sum

/-- `torch.einsum('nd,kde,ne->nk', x, e2, x)`. -/
def einsum_nd_kde_ne {N D K : ℕ} (x : Mat N D) (a : Fin K → Fin D → Fin D → ℚ) :
    Mat N K :=
  fun n k => (List.ofFn fun d => (List.ofFn fun d2 => x n d * a k d d2 * x n d2).sum).sum

/-- `tensor.sum()` of a length-K vector (`alpha_k.sum()`). -/
def vecSum {K : ℕ} (v : Fin K → ℚ) : ℚ := (List.ofFn v).sum

/-- `tensor.sum(0)`: reduce an N x K tensor over its first axis. -/
def sum_dim0 {N K : ℕ} (r : Mat N K) : Fin K → ℚ :=
  fun k => (List.ofFn fun n => r n k).sum

/-- `tensor.softmax(-1)` along the last axis.  torch computes the same real
value in max-shifted form for numerical stability; the exact semantics is
exp-normalisation. -/
def softmaxLast {K : ℕ} (ex : ℚ → ℚ) (v : Fin K → ℚ) : Fin K → ℚ :=
  fun k => ex (v k) / (List.ofFn fun j => ex (v j)).sum

/-- `_compute_expec_log_lik` from `models/gmm.py` (Bishop eq. 10.64):
`prod1 + prod2 - expec_log_norm` with the two einsum contractions. -/
def compute_expec_log_lik {C : Type} {N D K : ℕ} (env : GmmEnv C N D K)
    (x : Mat N D) (component_posteriors : C) : Mat N K :=
  fun n k =>
    einsum_nd_kd x (env.expectedStats component_posteriors).eta1 n k
      + einsum_nd_kde_ne x (env.expectedStats component_posteriors).eta2 n k
      - (env.expectedStats component_posteriors).logNorm k

/-- `_compute_expct_log_pi` from `models/gmm.py` (Bishop eq. 10.66):
`digamma(alpha_k) - digamma(alpha_k.sum())`. -/
def compute_expct_log_pi {C : Type} {N D K : ℕ} (env : GmmEnv C N D K)
    (mixing_posterior : Dirichlet K) : Fin K → ℚ :=
  fun k => env.digamma (mixing_posterior.concentration k)
    - env.digamma (vecSum mixing_posterior.concentration)

/-- `e_step` from `models/gmm.py`:
`r_nk = (expct_log_pi + expec_log_lik).softmax(-1)` (the length-K vector
broadcasts across the N rows). -/
def e_step {C : Type} {N D K : ℕ} (env : GmmEnv C N D K) (x : Mat N D)
    (mixing_posterior : Dirichlet K) (component_posteriors : C) : Mat N K :=
  fun n => softmaxLast env.exp
    (fun k => compute_expct_log_pi env mixing_posterior k
      + compute_expec_log_lik env x component_posteriors n k)

/-- `m_step` from `models/gmm.py`: `N_k = r_nk.sum(0)`,
`mixing_posterior = Dirichlet(mixing_prior.concentration + N_k)`,
`component_posteriors = component_prior.posterior(x, r_nk)`. -/
def m_step {C : Type} {N D K : ℕ} (env : GmmEnv C N D K) (x : Mat N D)
    (r_nk : Mat N K) (mixing_prior : Dirichlet K) (component_prior : C) :
    Dirichlet K × C :=
  let Nk := sum_dim0 r_nk
  (⟨fun k => mixing_prior.concentration k + Nk k⟩,
    env.posterior component_prior x r_nk)

/-- Modelled from the spec: the `natural_gmm` module is code of this
repository that is not under `src/`.  Per spec section 4.3, `NaturalGMMPrior`
is an immutable pair of a Dirichlet mixing prior and a Normal-Wishart
component prior. -/
structure NaturalGMMPrior (C : Type) (K : ℕ) where
  mixingPrior : Dirichlet K
  componentPrior : C

/-- Modelled from the spec: `natural_gmm.init(K, D, alpha_scale, nu_scale,
mean_scale, cov_scale, dof_init)` builds a symmetric Dirichlet(alpha_scale
repeated K times) mixing prior and a Normal-Wishart component prior from the
remaining scales (its internals live outside `src/` and are abstracted as the
environment's `initComponent`). -/
def natural_gmm_init {C : Type} {K : ℕ} (initComponent : ℚ → ℚ → ℚ → ℚ → C)
    (alpha_scale nu_scale mean_scale cov_scale dof_init : ℚ) :
    NaturalGMMPrior C K :=
  ⟨⟨fun _ => alpha_scale⟩, initComponent nu_scale mean_scale cov_scale dof_init⟩

/-- Modelled from the spec: `NaturalGMMPrior.from_priors` re-wraps a fitted
posterior pair as a new prior container with no transformation of values
(identity re-labelling, spec section 4.3). -/
def NaturalGMMPrior.from_priors {C : Type} {K : ℕ} (mp : Dirichlet K) (cp : C) :
    NaturalGMMPrior C K :=
  ⟨mp, cp⟩

/-- Python runtime errors the embedded driver functions can raise. -/
inductive PyError
  | valueErrorUnpack (expected got : ℕ)
  | nameError (name : String)
deriving DecidableEq

/-- Python sequence unpacking `a, b = seq` of a sequence of length `seqLen`
into `targets` targets: succeeds exactly when the lengths agree, otherwise
raises `ValueError` (too many / not enough values to unpack). -/
def tuple_unpack (targets seqLen : ℕ) : Except PyError Unit :=
  if seqLen = targets then Except.ok ()
  else Except.error (PyError.valueErrorUnpack targets seqLen)

/-- The prior both drivers build:
`natural_gmm.init(K, D, alpha_scale=0.05 / K, nu_scale=0.5, mean_scale=0,
cov_scale=D + 0.5, dof_init=D + 0.5)`. -/
def vem_init_prior {C : Type} {N D K : ℕ} (env : GmmEnv C N D K) :
    NaturalGMMPrior C K :=
  natural_gmm_init env.initComponent ((1 / 20 : ℚ) / (K : ℚ)) (1 / 2) 0
    ((D : ℚ) + 1 / 2) ((D : ℚ) + 1 / 2)

/-- The `for i in range(n_iter)` loop of `run_vem`, threading the pair
(current `r_nk`, last bound `(mixing_posterior, component_posteriors)` if
any).  `none` in the second slot means the loop body never ran, so the two
posterior names are still unbound locals. -/
def vem_loop {C : Type} {N D K : ℕ} (env : GmmEnv C N D K) (x : Mat N D)
    (gmm : NaturalGMMPrior C K) :
    ℕ → Mat N K × Option (Dirichlet K × C) → Mat N K × Option (Dirichlet K × C)
  | 0, s => s
  | n + 1, s =>
    let mpcp := m_step env x s.1 gmm.mixingPrior gmm.componentPrior
    vem_loop env x gmm n (e_step env x mpcp.1 mpcp.2, some mpcp)

/-- `run_vem` from `models/gmm.py`.  The initial Dirichlet(1,...,1) draw of
`r_nk` is the parameter `r0` (randomness is modelled by quantifying over the
drawn value).  Reading `mixing_posterior` after a loop that never ran raises
Python's unbound-local error, modelled as `nameError`. -/
def run_vem {C : Type} {N D K : ℕ} (env : GmmEnv C N D K) (r0 : Mat N K)
    (x : Mat N D) (n_iter : ℕ) : Except PyError (NaturalGMMPrior C K) :=
  let gmm := vem_init_prior env
  match (vem_loop env x gmm n_iter (r0, none)).2 with
  | none => Except.error (PyError.nameError "mixing_posterior")
  | some mpcp => Except.ok (NaturalGMMPrior.from_priors mpcp.1 mpcp.2)

/-- `inference` from `models/gmm.py`.  After one `m_step`, the line
`r_nk_new, pi = e_step(x, mixing_posterior, component_posteriors)`
tuple-unpacks the single (N, K) tensor returned by `e_step` along its first
axis into two targets, and the function body has no return statement, so on
success it returns Python's `None` (modelled as `Unit`). -/
def inference {C : Type} {N D K : ℕ} (env : GmmEnv C N D K) (r0 : Mat N K)
    (x : Mat N D) : Except PyError Unit :=
  let gmm := vem_init_prior env
  let mpcp := m_step env x r0 gmm.mixingPrior gmm.componentPrior
  let _r_nk := e_step env x mpcp.1 mpcp.2
  tuple_unpack 2 N

/-- The responsibility formula exactly as the specification words it
(spec-side definition, to be compared with `e_step`):
`softmax_over_k(expct_log_pi + expec_log_lik)` with
`expct_log_pi[k] = digamma(alpha_k) - digamma(sum alpha)` and
`expec_log_lik[n,k] = sum_d x[n,d]*eta1[k,d]
  + sum_{d,e} x[n,d]*eta2[k,d,e]*x[n,e] - expec_log_norm[k]`. -/
def e_step_spec {C : Type} {N D K : ℕ} (env : GmmEnv C N D K) (x : Mat N D)
    (mixing_posterior : Dirichlet K) (component_posteriors : C) : Mat N K :=
  fun n k =>
    let s := env.expectedStats component_posteriors
    let logits : Fin K → ℚ := fun j =>
      (env.digamma (mixing_posterior.concentration j)
          - env.digamma (∑ i, mixing_posterior.concentration i))
        + ((∑ d, x n d * s.eta1 j d)
            + (∑ d, ∑ d2, x n d * s.eta2 j d d2 * x n d2)
            - s.logNorm j)
    env.exp (logits k) / ∑ j, env.exp (logits j)

/-- One full VEM iteration's m-step, as `run_vem` performs it: the mixing and
component priors are always the freshly initialised ones. -/
def vem_m {C : Type} {N D K : ℕ} (env : GmmEnv C N D K) (x : Mat N D)
    (gmm : NaturalGMMPrior C K) (r : Mat N K) : Dirichlet K × C :=
  m_step env x r gmm.mixingPrior gmm.componentPrior

/-- One full VEM iteration (m-step then e-step) acting on responsibilities. -/
def vem_iter {C : Type} {N D K : ℕ} (env : GmmEnv C N D K) (x : Mat N D)
    (gmm : NaturalGMMPrior C K) (r : Mat N K) : Mat N K :=
  e_step env x (vem_m env x gmm r).1 (vem_m env x gmm r).2

/- Concrete example data used by the witnesses and counterexamples. -/

/-- Zero expected statistics, for the trivial component-prior type `Unit`. -/
def zeroStats (K D : ℕ) : NNWStats K D :=
  ⟨fun _ _ => 0, fun _ _ _ => 0, fun _ => 0⟩

/-- A concrete interpretation environment with N = 2 rows, D = 1, K = 2. -/
def gmmEnv2 : GmmEnv Unit 2 1 2 :=
  { digamma := fun t => t
    exp := fun _ => 1
    expectedStats := fun _ => zeroStats 2 1
    posterior := fun c _ _ => c
    initComponent := fun _ _ _ _ => () }

/-- A concrete interpretation environment with N = 3 rows, D = 1, K = 2. -/
def gmmEnv3 : GmmEnv Unit 3 1 2 :=
  { digamma := fun t => t
    exp := fun _ => 1
    expectedStats := fun _ => zeroStats 2 1
    posterior := fun c _ _ => c
    initComponent := fun _ _ _ _ => () }

/-- A concrete interpretation environment with N = 1 row, D = 1, K = 1. -/
def gmmEnv1 : GmmEnv Unit 1 1 1 :=
  { digamma := fun t => t
    exp := fun _ => 1
    expectedStats := fun _ => zeroStats 1 1
    posterior := fun c _ _ => c
    initComponent := fun _ _ _ _ => () }

/-- A concrete 2 x 1 data matrix. -/
def x2 : Mat 2 1 := fun _ _ => 0

/-- A concrete 3 x 1 data matrix. -/
def x3 : Mat 3 1 := fun _ _ => 0

/-- A concrete 1 x 1 data matrix. -/
def x1 : Mat 1 1 := fun _ _ => 0

/-- A concrete 2 x 2 initial responsibility draw. -/
def r02 : Mat 2 2 := fun _ _ => (1 : ℚ) / 2

/-- A concrete 3 x 2 initial responsibility draw. -/
def r03 : Mat 3 2 := fun _ _ => (1 : ℚ) / 2

/-- A concrete 1 x 1 initial responsibility draw. -/
def r01 : Mat 1 1 := fun _ _ => 1

/-- A concrete length-1 Dirichlet mixing posterior. -/
def mp1 : Dirichlet 1 := ⟨fun _ => 1⟩

/- Theorems. -/

/-- Helper: exp-normalisation yields a point of the probability simplex as
soon as the exponential map is positive and there is at least one class. -/
theorem softmaxLast_simplex {K : ℕ} (ex : ℚ → ℚ) (v : Fin K → ℚ)
    (hK : 0 < K) (hex : ∀ t, 0 < ex t) :
    (∀ k, 0 ≤ softmaxLast ex v k) ∧ ∑ k, softmaxLast ex v k = 1 := by
  haveI : Nonempty (Fin K) := ⟨⟨0, hK⟩⟩
  have hpos : 0 < ∑ j, ex (v j) :=
    Finset.sum_pos (fun j _ => hex (v j)) Finset.univ_nonempty
  constructor
  · intro k
    simp only [softmaxLast, List.sum_ofFn]
    exact div_nonneg (hex (v k)).le hpos.le
  · simp only [softmaxLast, List.sum_ofFn]
    rw [← Finset.sum_div, div_self hpos.ne']

/-- C1 counterexample: on the concrete valid data matrix `x2` (N = 2 rows,
D = 1 column) with K = 2, `inference` completes without raising any error
(returning Python's `None`); in particular it does not fail with an
undefined-reference error for `pi`. -/
theorem c1_counterexample :
    inference gmmEnv2 r02 x2 = Except.ok ()
      ∧ inference gmmEnv2 r02 x2 ≠ Except.error (PyError.nameError "pi") :=
  ⟨rfl, fun h => Except.noConfusion h⟩

/-- C1 (amended): for every valid data matrix whose row count N is not 2,
`inference(x, 2)` fails with a length-mismatch unpacking `ValueError` (the
name `pi` is a tuple-unpacking target, so no undefined-reference error can
occur). -/
theorem c1_inference_unpack {C : Type} {N D K : ℕ} (env : GmmEnv C N D K)
    (r0 : Mat N K) (x : Mat N D) (h : N ≠ 2) :
    inference env r0 x = Except.error (PyError.valueErrorUnpack 2 N) := by
  simp [inference, tuple_unpack, h]

/-- C1 witness: the amended statement instantiated at the concrete N = 3
input. -/
theorem c1_witness :
    (3 ≠ 2)
      ∧ inference gmmEnv3 r03 x3 = Except.error (PyError.valueErrorUnpack 2 3) :=
  ⟨by decide, c1_inference_unpack gmmEnv3 r03 x3 (by decide)⟩

/-- C2 counterexample: at the concrete input with zero iterations, `run_vem`
raises Python's unbound-local error for `mixing_posterior` instead of
returning any `NaturalGMMPrior`, so it is not structurally identical to
wrapping the freshly initialised prior. -/
theorem c2_counterexample :
    run_vem gmmEnv2 r02 x2 0 = Except.error (PyError.nameError "mixing_posterior")
      ∧ run_vem gmmEnv2 r02 x2 0
          ≠ Except.ok (NaturalGMMPrior.from_priors
              (vem_init_prior gmmEnv2).mixingPrior
              (vem_init_prior gmmEnv2).componentPrior) :=
  ⟨rfl, fun h => Except.noConfusion h⟩

/-- C2 (amended): for every data matrix and every K, `run_vem(x, K, 0)`
executes no m-step or e-step and fails with an unbound-local
(undefined-name) error for `mixing_posterior`, because the loop body that
would bind the posteriors never runs. -/
theorem c2_run_vem_zero {C : Type} {N D K : ℕ} (env : GmmEnv C N D K)
    (r0 : Mat N K) (x : Mat N D) :
    run_vem env r0 x 0 = Except.error (PyError.nameError "mixing_posterior") :=
  rfl

/-- C3: `inference` binds `pi` by tuple-unpacking the single (N, K) tensor
returned by `e_step`, so it raises a length-mismatch unpacking error exactly
when N is not 2, completes returning `None` when N = 2, and never raises an
undefined-name error. -/
theorem c3_inference_behavior {C : Type} {N D K : ℕ} (env : GmmEnv C N D K)
    (r0 : Mat N K) (x : Mat N D) :
    (N = 2 → inference env r0 x = Except.ok ())
      ∧ (N ≠ 2 →
          inference env r0 x = Except.error (PyError.valueErrorUnpack 2 N))
      ∧ (∀ s, inference env r0 x ≠ Except.error (PyError.nameError s)) := by
  refine ⟨fun h => ?_, fun h => ?_, fun s => ?_⟩
  · simp [inference, tuple_unpack, h]
  · simp [inference, tuple_unpack, h]
  · by_cases h : N = 2 <;> simp [inference, tuple_unpack, h]

/-- C3 witness: the characterisation instantiated at the concrete N = 2
input, where `inference` completes and returns `None`. -/
theorem c3_witness :
    (2 = 2) ∧ inference gmmEnv2 r02 x2 = Except.ok () :=
  ⟨rfl, (c3_inference_behavior gmmEnv2 r02 x2).1 rfl⟩

/-- C4: `e_step` returns exactly the softmax over the component axis of
`expct_log_pi + expec_log_lik`, where
`expct_log_pi[k] = digamma(alpha_k) - digamma(sum alpha)` and
`expec_log_lik[n,k] = sum_d x[n,d]*eta1[k,d]
  + sum_{d,e} x[n,d]*eta2[k,d,e]*x[n,e] - expec_log_norm[k]`. -/
theorem c4_e_step_formula {C : Type} {N D K : ℕ} (env : GmmEnv C N D K)
    (x : Mat N D) (mixing_posterior : Dirichlet K) (component_posteriors : C)
    (n : Fin N) (k : Fin K) :
    e_step env x mixing_posterior component_posteriors n k
      = e_step_spec env x mixing_posterior component_posteriors n k := by
  simp [e_step, e_step_spec, softmaxLast, compute_expct_log_pi,
    compute_expec_log_lik, einsum_nd_kd, einsum_nd_kde_ne, vecSum,
    List.sum_ofFn]

/-- C5: the mixing posterior returned by `m_step` is a Dirichlet whose
concentration vector equals the prior concentration plus the column sums of
`r_nk`, exactly, and its component posteriors equal
`component_prior.posterior(x, r_nk)`. -/
theorem c5_m_step_update {C : Type} {N D K : ℕ} (env : GmmEnv C N D K)
    (x : Mat N D) (r_nk : Mat N K) (mixing_prior : Dirichlet K)
    (component_prior : C) :
    (∀ k, (m_step env x r_nk mixing_prior component_prior).1.concentration k
        = mixing_prior.concentration k + ∑ n, r_nk n k)
      ∧ (m_step env x r_nk mixing_prior component_prior).2
        = env.posterior component_prior x r_nk := by
  refine ⟨fun k => ?_, rfl⟩
  simp [m_step, sum_dim0, List.sum_ofFn]

/-- Helper: the `run_vem` loop run `n + 1` times ends with the posteriors of
the m-step applied to the `n`-fold iterate of (m-step then e-step) on the
initial responsibilities. -/
theorem vem_loop_snd {C : Type} {N D K : ℕ} (env : GmmEnv C N D K)
    (x : Mat N D) (gmm : NaturalGMMPrior C K) :
    ∀ (n : ℕ) (r : Mat N K) (o : Option (Dirichlet K × C)),
      (vem_loop env x gmm (n + 1) (r, o)).2
        = some (vem_m env x gmm ((vem_iter env x gmm)^[n] r)) := by
  intro n
  induction n with
  | zero => intro r o; rfl
  | succ m ih =>
    intro r o
    have h1 : vem_loop env x gmm (m + 1 + 1) (r, o)
        = vem_loop env x gmm (m + 1)
            (vem_iter env x gmm r, some (vem_m env x gmm r)) := rfl
    rw [h1, ih, Function.iterate_succ_apply]

/-- C6: for every `n_iter` at least 1, `run_vem` builds the prior via
`init(K, D, 0.05/K, 0.5, 0, D+0.5, D+0.5)` (recorded in `vem_init_prior`),
alternates exactly `n_iter` times m-step then e-step starting from the single
initial responsibility draw `r0`, and returns the posteriors of the last
m-step wrapped via `from_priors`; the e-step following the last m-step does
not appear in the returned value. -/
theorem c6_run_vem_structure {C : Type} {N D K : ℕ} (env : GmmEnv C N D K)
    (r0 : Mat N K) (x : Mat N D) (n_iter : ℕ) (h : 1 ≤ n_iter) :
    run_vem env r0 x n_iter
      = Except.ok (NaturalGMMPrior.from_priors
          (vem_m env x (vem_init_prior env)
            ((vem_iter env x (vem_init_prior env))^[n_iter - 1] r0)).1
          (vem_m env x (vem_init_prior env)
            ((vem_iter env x (vem_init_prior env))^[n_iter - 1] r0)).2) := by
  obtain ⟨m, rfl⟩ : ∃ m, n_iter = m + 1 :=
    ⟨n_iter - 1, (Nat.succ_pred_eq_of_pos h).symm⟩
  have h2 := vem_loop_snd env x (vem_init_prior env) m r0 none
  simp only [run_vem, h2, Nat.add_sub_cancel]

/-- C6 witness: the structure theorem instantiated at `n_iter = 1` on
concrete data. -/
theorem c6_witness :
    1 ≤ 1
      ∧ run_vem gmmEnv1 r01 x1 1
        = Except.ok (NaturalGMMPrior.from_priors
            (vem_m gmmEnv1 x1 (vem_init_prior gmmEnv1)
              ((vem_iter gmmEnv1 x1 (vem_init_prior gmmEnv1))^[1 - 1] r01)).1
            (vem_m gmmEnv1 x1 (vem_init_prior gmmEnv1)
              ((vem_iter gmmEnv1 x1 (vem_init_prior gmmEnv1))^[1 - 1] r01)).2) :=
  ⟨le_refl 1, c6_run_vem_structure gmmEnv1 r01 x1 1 (le_refl 1)⟩

/-- C7: for at least one component (K > 0) and a positive exponential map,
every row of the N x K array returned by `e_step` is non-negative and sums
exactly to 1. -/
theorem c7_e_step_rows_normalized {C : Type} {N D K : ℕ} (env : GmmEnv C N D K)
    (x : Mat N D) (mixing_posterior : Dirichlet K) (component_posteriors : C)
    (hK : 0 < K) (hexp : ∀ t, 0 < env.exp t) (n : Fin N) :
    (∀ k, 0 ≤ e_step env x mixing_posterior component_posteriors n k)
      ∧ ∑ k, e_step env x mixing_posterior component_posteriors n k = 1 :=
  softmaxLast_simplex env.exp _ hK hexp

/-- C7 witness: normalisation at the concrete N = D = K = 1 input with the
constant-one exponential interpretation. -/
theorem c7_witness :
    (0 < 1 ∧ ∀ t : ℚ, 0 < gmmEnv1.exp t)
      ∧ ((∀ k, 0 ≤ e_step gmmEnv1 x1 mp1 () (0 : Fin 1) k)
        ∧ ∑ k, e_step gmmEnv1 x1 mp1 () (0 : Fin 1) k = 1) :=
  ⟨⟨Nat.one_pos, fun _ => one_pos⟩,
    c7_e_step_rows_normalized gmmEnv1 x1 mp1 () Nat.one_pos
      (fun _ => one_pos) (0 : Fin 1)⟩

/-!
Embedding of `conditional_sem.py`: the pyro transform objects the
constructor builds, the `pgm_model` generative graph, and the module-level
model-registry side effect.
-/

/-- The pyro transform constructors appearing in `ConditionalVISEM.__init__`.
`spline` records the input dimension of `Spline(1)`; `condAffine` tags the
two `ConditionalAffineTransform`s by the covariate whose `DenseNN(2, [8, 16],
param_dims=[1, 1])` context network parameterises them. -/
inductive PrimTransform
  | affine (loc scale : ℚ)
  | expT
  | spline (dim : ℕ)
  | condAffine (tag : String)
deriving DecidableEq

/-- Semantics of the transcendental and learned transform components:
`ex`/`lg` interpret `ExpTransform` forward/inverse, `sp`/`spInv` the learned
spline, `ca`/`caInv` the conditional affine transforms (their learned
parameters are arbitrary, so they are abstract functions). -/
structure FlowSemEnv where
  ex : ℚ → ℚ
  lg : ℚ → ℚ
  sp : ℚ → ℚ
  spInv : ℚ → ℚ
  ca : String → ℚ → ℚ
  caInv : String → ℚ → ℚ

/-- Forward application of one pyro transform.
`AffineTransform(loc, scale)` maps `v` to `loc + scale * v`. -/
def primFwd (env : FlowSemEnv) : PrimTransform → ℚ → ℚ
  | .affine loc scale => fun v => loc + scale * v
  | .expT => env.ex
  | .spline _ => env.sp
  | .condAffine tag => env.ca tag

/-- Inverse application of one pyro transform. -/
def primInv (env : FlowSemEnv) : PrimTransform → ℚ → ℚ
  | .affine loc scale => fun v => (v - loc) / scale
  | .expT => env.lg
  | .spline _ => env.spInv
  | .condAffine tag => env.caInv tag

/-- `ComposeTransform` forward: parts applied left to right. -/
def composeFwd (env : FlowSemEnv) (ts : List PrimTransform) (v : ℚ) : ℚ :=
  ts.foldl (fun a t => primFwd env t a) v

/-- `ComposeTransform` inverse: the parts' inverses applied right to left. -/
def composeInv (env : FlowSemEnv) (ts : List PrimTransform) (v : ℚ) : ℚ :=
  ts.foldr (fun t a => primInv env t a) v

/-- `self.age_flow_components = ComposeTransformModule([Spline(1)])`. -/
def age_flow_components : List PrimTransform := [PrimTransform.spline 1]

/-- `self.age_flow_lognorm = AffineTransform(loc=0., scale=1.)`. -/
def age_flow_lognorm : PrimTransform := PrimTransform.affine 0 1

/-- `self.age_flow_constraint_transforms
    = ComposeTransform([self.age_flow_lognorm, ExpTransform()])`. -/
def age_flow_constraint_transforms : List PrimTransform :=
  [age_flow_lognorm, PrimTransform.expT]

/-- `self.age_flow_transforms = ComposeTransform([self.age_flow_components,
self.age_flow_constraint_transforms])`, flattened to the list of primitive
parts (composition of compositions). -/
def age_flow_transforms : List PrimTransform :=
  age_flow_components ++ age_flow_constraint_transforms

/-- `self.ventricle_volume_flow_components
    = ConditionalAffineTransform(context_nn=ventricle_volume_net, event_dim=0)`. -/
def ventricle_volume_flow_components : PrimTransform :=
  PrimTransform.condAffine "ventricle_volume"

/-- `self.ventricle_volume_flow_lognorm = AffineTransform(loc=0., scale=1.)`. -/
def ventricle_volume_flow_lognorm : PrimTransform := PrimTransform.affine 0 1

/-- `self.ventricle_volume_flow_constraint_transforms
    = ComposeTransform([lognorm, ExpTransform()])`. -/
def ventricle_volume_flow_constraint_transforms : List PrimTransform :=
  [ventricle_volume_flow_lognorm, PrimTransform.expT]

/-- `self.ventricle_volume_flow_transforms = [components, constraint]`,
flattened. -/
def ventricle_volume_flow_transforms : List PrimTransform :=
  ventricle_volume_flow_components :: ventricle_volume_flow_constraint_transforms

/-- `self.brain_volume_flow_components
    = ConditionalAffineTransform(context_nn=brain_volume_net, event_dim=0)`. -/
def brain_volume_flow_components : PrimTransform :=
  PrimTransform.condAffine "brain_volume"

/-- `self.brain_volume_flow_lognorm = AffineTransform(loc=0., scale=1.)`. -/
def brain_volume_flow_lognorm : PrimTransform := PrimTransform.affine 0 1

/-- `self.brain_volume_flow_constraint_transforms
    = ComposeTransform([lognorm, ExpTransform()])`. -/
def brain_volume_flow_constraint_transforms : List PrimTransform :=
  [brain_volume_flow_lognorm, PrimTransform.expT]

/-- `self.brain_volume_flow_transforms = [components, constraint]`, flattened. -/
def brain_volume_flow_transforms : List PrimTransform :=
  brain_volume_flow_components :: brain_volume_flow_constraint_transforms

/-- The distribution objects `pgm_model` constructs (per observation; the
`.to_event(1)` and batching structure are not needed by the claims). -/
inductive PyDist
  | bernoulliEv1 (logits : ℚ)
  | transformedNormalEv1 (loc scale : ℚ) (ts : List PrimTransform)
  | condTransformedNormalEv1 (loc scale : ℚ) (ts : List PrimTransform)
      (context : List ℚ)
deriving DecidableEq

/-- The base-class parameters `pgm_model` reads (`BaseVISEM` attributes). -/
structure PgmParams where
  sex_logits : ℚ
  age_base_loc : ℚ
  age_base_scale : ℚ
  ventricle_volume_base_loc : ℚ
  ventricle_volume_base_scale : ℚ
  brain_volume_base_loc : ℚ
  brain_volume_base_scale : ℚ

/-- An execution trace of `pgm_model`: the distribution constructed at each
sample site and the values drawn (supplied by the sampling oracle). -/
structure PgmTrace where
  sexDist : PyDist
  ageDist : PyDist
  vvDist : PyDist
  bvDist : PyDist
  sex : ℚ
  age : ℚ
  ventricle_volume : ℚ
  brain_volume : ℚ

/-- `ConditionalVISEM.pgm_model`, translated statement by statement.  The
pyro sampling oracle `ω` supplies the value drawn at each named sample site;
`age_` is the constraint-transform inverse of the sampled age, and
`context = torch.cat([sex, age_], 1)` feeds both conditional volume flows. -/
def pgm_model (env : FlowSemEnv) (θ : PgmParams) (ω : String → ℚ) : PgmTrace :=
  let sexDist := PyDist.bernoulliEv1 θ.sex_logits
  let sex := ω "sex"
  let ageDist := PyDist.transformedNormalEv1 θ.age_base_loc θ.age_base_scale
    age_flow_transforms
  let age := ω "age"
  let age_ := composeInv env age_flow_constraint_transforms age
  let context := [sex, age_]
  let vvDist := PyDist.condTransformedNormalEv1 θ.ventricle_volume_base_loc
    θ.ventricle_volume_base_scale ventricle_volume_flow_transforms context
  let ventricle_volume := ω "ventricle_volume"
  let bvDist := PyDist.condTransformedNormalEv1 θ.brain_volume_base_loc
    θ.brain_volume_base_scale brain_volume_flow_transforms context
  let brain_volume := ω "brain_volume"
  ⟨sexDist, ageDist, vvDist, bvDist, sex, age, ventricle_volume, brain_volume⟩

/-- The classes that can be stored in the model registry. -/
inductive ModelClass
  | conditionalVISEM
  | base (name : String)
deriving DecidableEq

/-- Modelled from the spec: `MODEL_REGISTRY` lives in
`base_sem_experiment.py`, which is not under `src/`; per spec sections 3 and
6 it is a module-level mutable mapping from class-name strings to classes. -/
abbrev Registry := String → Option ModelClass

/-- The module-level statement
`MODEL_REGISTRY[ConditionalVISEM.__name__] = ConditionalVISEM`
(Python dict assignment). -/
def register_conditional_visem (r : Registry) : Registry :=
  fun s => if s = "ConditionalVISEM" then some ModelClass.conditionalVISEM else r s

/-- Process state: the registry plus a count of constructed instances (the
constructor builds networks and transforms but touches no global state). -/
structure ProcState where
  registry : Registry
  instanceCount : ℕ

/-- Importing `conditional_sem.py`: runs the module body once, whose only
registry effect is the single registration line. -/
def load_conditional_sem_module (st : ProcState) : ProcState :=
  { st with registry := register_conditional_visem st.registry }

/-- Constructing `ConditionalVISEM(**kwargs)`: allocates an instance; its
`__init__` contains no registry access, so the registry is untouched and no
registry error can be raised. -/
def construct_conditional_visem (st : ProcState) : ProcState :=
  { st with instanceCount := st.instanceCount + 1 }

/-- Identity interpretation of the transcendental transform components, used
by the concrete witnesses. -/
def idFlowEnv : FlowSemEnv :=
  { ex := fun v => v
    lg := fun v => v
    sp := fun v => v
    spInv := fun v => v
    ca := fun _ v => v
    caInv := fun _ v => v }

/-- Concrete base-class parameters for the witnesses. -/
def pgmParams0 : PgmParams := ⟨0, 0, 1, 0, 1, 0, 1⟩

/-- A concrete sampling oracle drawing sex = 1. -/
def omega1 : String → ℚ := fun s => if s = "sex" then 1 else 0

/-- A concrete sampling oracle drawing sex = 0 and agreeing with `omega1`
everywhere else. -/
def omega2 : String → ℚ := fun s => if s = "sex" then 0 else 0

/-- A concrete process state with an empty registry. -/
def procState0 : ProcState := ⟨fun _ => none, 0⟩

/-- C8: applying the age flow's constraint transform (affine(0,1) then exp)
to the result of its own inverse reproduces every positive value, given that
the exponential and logarithm interpretations cancel on positives: forward
after inverse is the identity on the constraint transform's range. -/
theorem c8_age_constraint_round_trip (env : FlowSemEnv) (y : ℚ) (hy : 0 < y)
    (hinv : ∀ z : ℚ, 0 < z → env.ex (env.lg z) = z) :
    composeFwd env age_flow_constraint_transforms
      (composeInv env age_flow_constraint_transforms y) = y := by
  have h : composeFwd env age_flow_constraint_transforms
      (composeInv env age_flow_constraint_transforms y) = env.ex (env.lg y) := by
    simp [composeFwd, composeInv, age_flow_constraint_transforms,
      age_flow_lognorm, primFwd, primInv]
  rw [h, hinv y hy]

/-- C8 witness: the round trip at the concrete positive value 2 under the
identity interpretation of exp/log. -/
theorem c8_witness :
    (0 : ℚ) < 2
      ∧ composeFwd idFlowEnv age_flow_constraint_transforms
          (composeInv idFlowEnv age_flow_constraint_transforms 2) = 2 :=
  ⟨by norm_num,
    c8_age_constraint_round_trip idFlowEnv 2 (by norm_num) (fun _ _ => rfl)⟩

/-- C9: the distribution `pgm_model` samples age from is built only from
`age_base_loc`, `age_base_scale` and the age flow transforms, and is
identical across any two runs that differ only in the value drawn at the
`sex` site — the sampled sex has no influence on age's distribution. -/
theorem c9_age_dist_independent_of_sex (env : FlowSemEnv) (θ : PgmParams)
    (ω1 ω2 : String → ℚ) (_h : ∀ s, s ≠ "sex" → ω1 s = ω2 s) :
    (pgm_model env θ ω1).ageDist = (pgm_model env θ ω2).ageDist
      ∧ (pgm_model env θ ω1).ageDist
        = PyDist.transformedNormalEv1 θ.age_base_loc θ.age_base_scale
            age_flow_transforms :=
  ⟨rfl, rfl⟩

/-- C9 witness: two concrete oracles that differ exactly in the sampled sex
produce the same age distribution. -/
theorem c9_witness :
    (∀ s, s ≠ "sex" → omega1 s = omega2 s)
      ∧ (pgm_model idFlowEnv pgmParams0 omega1).ageDist
        = (pgm_model idFlowEnv pgmParams0 omega2).ageDist :=
  ⟨fun s hs => by simp [omega1, omega2, hs],
    (c9_age_dist_independent_of_sex idFlowEnv pgmParams0 omega1 omega2
      (fun s hs => by simp [omega1, omega2, hs])).1⟩

/-- C10: after loading the module, `MODEL_REGISTRY["ConditionalVISEM"]`
refers to the `ConditionalVISEM` class, the registration changes no other
registry entry, and constructing instances (including twice) never raises a
registry error and leaves the registry unchanged. -/
theorem c10_registry_effect (st : ProcState) :
    (load_conditional_sem_module st).registry "ConditionalVISEM"
        = some ModelClass.conditionalVISEM
      ∧ (∀ s, s ≠ "ConditionalVISEM" →
          (load_conditional_sem_module st).registry s = st.registry s)
      ∧ (∀ st2 : ProcState,
          (construct_conditional_visem st2).registry = st2.registry)
      ∧ (construct_conditional_visem (construct_conditional_visem
            (load_conditional_sem_module st))).registry "ConditionalVISEM"
        = some ModelClass.conditionalVISEM := by
  refine ⟨?_, fun s hs => ?_, fun st2 => rfl, ?_⟩
  · simp [load_conditional_sem_module, register_conditional_visem]
  · simp [load_conditional_sem_module, register_conditional_visem, hs]
  · simp [load_conditional_sem_module, construct_conditional_visem,
      register_conditional_visem]

/-- C10 witness: the registry effect at the concrete empty registry, with a
lookup of an unrelated name left untouched. -/
theorem c10_witness :
    (load_conditional_sem_module procState0).registry "ConditionalVISEM"
        = some ModelClass.conditionalVISEM
      ∧ ("OtherModel" ≠ "ConditionalVISEM"
        ∧ (load_conditional_sem_module procState0).registry "OtherModel"
          = procState0.registry "OtherModel") :=
  ⟨(c10_registry_effect procState0).1,
    by decide,
    (c10_registry_effect procState0).2.1 "OtherModel" (by decide)⟩
